import Mathlib

/-!
Shallow embedding of the `redoubt` server lifecycle manager (src/src/index.ts).

The TypeScript `Server` class is modelled as pure state passing:
* `IOptions` / `PartialIOptions` mirror the option record and its `Partial<>`;
  TS `undefined` is the outer `Option`, TS `null` the inner one.
* `createDefaultOptions` mirrors the constructor-time validation and defaulting.
* `Server.startListening` is a deterministic function of the server state, the
  process environment and a bind-outcome oracle; it returns the new state, the
  new environment, an event trace (debug calls, event emissions, bind attempts)
  and the listen result.  Asynchronous bind completion is determinised by the
  oracle `bindOk`.
* `Server.close` takes a per-handle close-error oracle; `Promise.all` is
  determinised as "the first error in handle order" (the real first rejection
  is temporal, but it is always a single error, which is what matters here).
* `enableDestroy`'s connection registry is a list of keys; `destroy` iterates
  the registered keys, each destroyed socket's close callback deleting its key.
-/

namespace Redoubt

/-- The `ssl` field of a manual-certificate configuration (the object variant of
`IOptions.ssl`). -/
structure ManualSsl where
  key : String
  cert : String
  allowUnsigned : Bool
deriving Repr, DecidableEq

/-- The `ssl` union type: `"none" | "letsEncrypt" | { key, cert, allowUnsigned }`. -/
inductive SslConfig where
  | none
  | letsEncrypt
  | manual (m : ManualSsl)
deriving Repr, DecidableEq

/-- `staticFiles: { from: string, serve: string }`. -/
structure StaticFiles where
  fromDir : String
  serve : String
deriving Repr, DecidableEq

/-- A debug sink value.  The concrete callback body is irrelevant to the model;
we only track which sink it is: the library default (`defaultDebug`, logging to
the console) or a user-supplied one. -/
inductive DebugSink where
  | defaultDebug
  | custom (id : Nat)
deriving Repr, DecidableEq

/-- The fully-resolved `IOptions` interface.  `debug` and `staticFiles` are the
nullable fields (`| null` in TS). -/
structure IOptions where
  name : String
  domains : List String
  cookieSecret : String
  webmasterMail : String
  isDevelopment : Bool
  ssl : SslConfig
  letsEncryptCertDirectory : String
  agreeGreenlockTos : Bool
  staticFiles : Option StaticFiles
  maxPayloadSize : Int
  debug : Option DebugSink
deriving Repr, DecidableEq

/-- `Partial<IOptions>`: every field may be `undefined` (outer `Option`);
nullable fields keep their inner `Option` for `null`. -/
structure PartialIOptions where
  name : Option String := Option.none
  domains : Option (List String) := Option.none
  cookieSecret : Option String := Option.none
  webmasterMail : Option String := Option.none
  isDevelopment : Option Bool := Option.none
  ssl : Option SslConfig := Option.none
  letsEncryptCertDirectory : Option String := Option.none
  agreeGreenlockTos : Option Bool := Option.none
  staticFiles : Option (Option StaticFiles) := Option.none
  maxPayloadSize : Option Int := Option.none
  debug : Option (Option DebugSink) := Option.none
deriving Repr, DecidableEq

/-- `createDefaultOptions` (src/src/index.ts:238-259): throws (here: `Except.error`)
when a required field is `undefined`, checked in source order; otherwise fills in
the documented defaults. -/
def createDefaultOptions (p : PartialIOptions) : Except String IOptions :=
  match p.name, p.domains, p.cookieSecret, p.webmasterMail with
  | Option.none, _, _, _ => .error "name is required."
  | _, Option.none, _, _ => .error "domains is required."
  | _, _, Option.none, _ => .error "cookieSecret is required."
  | _, _, _, Option.none => .error "webmasterMail is required."
  | Option.some name, Option.some domains, Option.some cookieSecret, Option.some webmasterMail =>
    .ok
      { name := name
        domains := domains
        cookieSecret := cookieSecret
        webmasterMail := webmasterMail
        debug := p.debug.getD (Option.some DebugSink.defaultDebug)
        isDevelopment := p.isDevelopment.getD false
        agreeGreenlockTos := p.agreeGreenlockTos.getD false
        staticFiles := p.staticFiles.getD Option.none
        maxPayloadSize := p.maxPayloadSize.getD (100 * 1024)
        ssl := p.ssl.getD SslConfig.letsEncrypt
        letsEncryptCertDirectory := p.letsEncryptCertDirectory.getD "./.certs/" }

end Redoubt

namespace Redoubt

/-- Which branch of `startListening` created a pushed listener handle. -/
inductive HandleKind where
  | fallback
  | greenlock
  | plain
  | spdy
deriving Repr, DecidableEq

/-- A listener pushed onto `_server`, carrying the connection registry that
`enableDestroy` installs on it.  `port` is `Option Nat` because the TS port
fields are typed `number | null`. -/
structure Handle where
  kind : HandleKind
  port : Option Nat
  connections : List String := []
deriving Repr, DecidableEq

/-- `connections[key] = conn` (src/src/index.ts:21): JS object assignment; the
key set gains `key` if absent, insertion order of string keys is preserved. -/
def registerConn (key : String) (conns : List String) : List String :=
  if conns.contains key then conns else conns ++ [key]

/-- The close observer `delete connections[key]` (src/src/index.ts:22-24). -/
def removeConn (key : String) (conns : List String) : List String :=
  conns.filter (fun k => k != key)

/-- `server.destroy`'s sweep (src/src/index.ts:29-31): iterate the registered
keys and destroy each socket; each destroyed socket fires `close`, whose
observer deletes its own key from the registry. -/
def destroyAllConns (conns : List String) : List String :=
  conns.foldl (fun registry key => removeConn key registry) conns

/-- Effect of `srv.destroy` on a handle's connection registry. -/
def destroyHandle (h : Handle) : Handle :=
  { h with connections := destroyAllConns h.connections }

/-- The slice of `process.env` the code touches. -/
structure ProcessEnv where
  nodeTlsRejectUnauthorized : Option String := Option.none
deriving Repr, DecidableEq

/-- Observable events of a run: debug-sink invocations, `EventEmitter` emissions,
and listener bind attempts (the `.listen(...)` calls). -/
inductive Event where
  | debugCall (level : String) (message : String)
  | emit (name : String)
  | bindAttempt (port : Option Nat)
deriving Repr, DecidableEq

/-- Errors surfaced by `listen`: the explicit rejection
`new Error("Cannot listen on HTTP without HTTP port.")` (a configuration error),
or a bind failure reported by a listener's callback. -/
inductive ListenError where
  | configurationError (message : String)
  | bindError (port : Option Nat)
deriving Repr, DecidableEq

/-- The mutable fields of the `Server` class. -/
structure ServerState where
  options : IOptions
  server : List Handle := []
  portHttp : Option Nat := Option.none
  portHttps : Option Nat := Option.none
deriving Repr, DecidableEq

/-- The constructor (src/src/index.ts:39-45): validate and default options,
fire the `"debug"`-level sink call on configuration resolution (guarded by
`this._options.debug &&`). -/
def Server.construct (p : PartialIOptions) : Except String (ServerState × List Event) :=
  match createDefaultOptions p with
  | .error e => .error e
  | .ok o =>
    .ok ({ options := o },
      match o.debug with
      | Option.some _ => [Event.debugCall "debug" "Options"]
      | Option.none => [])

/-- `spdyOptions` (src/src/index.ts:164-169): key/cert when `ssl` is not a
string (the manual object variant), empty strings otherwise. -/
def Server.spdyOptions (o : IOptions) : String × String :=
  match o.ssl with
  | SslConfig.manual m => (m.key, m.cert)
  | _ => ("", "")

def sslIsLetsEncrypt : SslConfig → Bool
  | SslConfig.letsEncrypt => true
  | _ => false

def sslIsNone : SslConfig → Bool
  | SslConfig.none => true
  | _ => false

/-- String rendering of a `number | null` port, as JS string concatenation
would produce it. -/
def portString : Option Nat → String
  | Option.some p => toString p
  | Option.none => "null"

/-- The fallback server's handler (src/src/index.ts:180):
`res.redirect("https://" + req.headers.host + ":" + this._portHttps + req.url)`;
`req.url` carries the path together with the query string. -/
def fallbackRedirect (portHttps : Option Nat) (host url : String) : String :=
  "https://" ++ host ++ ":" ++ portString portHttps ++ url

/-- Response of the fallback express server to one request. -/
inductive FallbackResponse where
  | redirect (location : String)
  | notFound
deriving Repr, DecidableEq

/-- Routing of the fallback express server: its only route is
`fallbackServer.get("*", ...)` (src/src/index.ts:180), which express matches
for `GET` (and, by the router's default fallthrough, `HEAD`) requests on every
path; a request with any other method reaches no route and gets express's
default not-found response. -/
def fallbackHandler (portHttps : Option Nat) (method host url : String) :
    FallbackResponse :=
  if method == "GET" || method == "HEAD" then
    .redirect (fallbackRedirect portHttps host url)
  else
    .notFound

/-- Whether the mode dispatch executes
`process.env.NODE_TLS_REJECT_UNAUTHORIZED = "0"`: for `letsEncrypt` with
`isDevelopment` (src/src/index.ts:190-192), and for manual ssl with
`allowUnsigned` or `isDevelopment` (src/src/index.ts:204-206). -/
def tlsRejectDisabled (o : IOptions) : Bool :=
  match o.ssl with
  | SslConfig.letsEncrypt => o.isDevelopment
  | SslConfig.none => false
  | SslConfig.manual m => m.allowUnsigned || o.isDevelopment

/-- Effect of the ssl-mode dispatch on the process environment. -/
def resolveSslEnv (o : IOptions) (env : ProcessEnv) : ProcessEnv :=
  if tlsRejectDisabled o then { env with nodeTlsRejectUnauthorized := Option.some "0" }
  else env

/-- A `this._options.debug && this._options.debug(level, message, ...)` call. -/
def debugTrace (o : IOptions) (level message : String) : List Event :=
  match o.debug with
  | Option.some _ => [Event.debugCall level message]
  | Option.none => []

/-- Result of one `startListening`/`listen` run. -/
structure ListenExec where
  state : ServerState
  env : ProcessEnv
  trace : List Event
  result : Except ListenError (List Handle)
deriving Repr

/-- Condition of src/src/index.ts:178: a separate redirect server is created
iff a plaintext port is requested and `ssl` is neither `letsEncrypt` nor
`none`. -/
def Server.useFallback (s : ServerState) : Bool :=
  s.portHttp.isSome && !sslIsLetsEncrypt s.options.ssl && !sslIsNone s.options.ssl

/-- The handle pushed by the fallback promise executor (src/src/index.ts:181). -/
def Server.fallbackHandles (s : ServerState) : List Handle :=
  if Server.useFallback s then [{ kind := HandleKind.fallback, port := s.portHttp }] else []

/-- The bind attempt made by the fallback branch. -/
def Server.fallbackAttempts (s : ServerState) : List Event :=
  if Server.useFallback s then [Event.bindAttempt s.portHttp] else []

/-- The fallback promise's rejection, per the bind oracle. -/
def Server.fallbackError (s : ServerState) (bindOk : Option Nat → Bool) :
    Option ListenError :=
  if Server.useFallback s && !bindOk s.portHttp then
    Option.some (ListenError.bindError s.portHttp)
  else Option.none

/-- The handle pushed by the main branch (src/src/index.ts:188-210): greenlock
for `letsEncrypt`, a plain HTTP listener on the plaintext port for `none`
(nothing is pushed when that port is null — the promise rejects before the
`.listen` call), spdy on the HTTPS port for manual certificates. -/
def Server.mainHandles (s : ServerState) : List Handle :=
  match s.options.ssl with
  | SslConfig.letsEncrypt => [{ kind := HandleKind.greenlock, port := s.portHttps }]
  | SslConfig.none =>
    match s.portHttp with
    | Option.none => []
    | Option.some hp => [{ kind := HandleKind.plain, port := Option.some hp }]
  | SslConfig.manual _ => [{ kind := HandleKind.spdy, port := s.portHttps }]

/-- The bind attempts made by the main branch: one per pushed handle. -/
def Server.mainAttempts (s : ServerState) : List Event :=
  (Server.mainHandles s).map (fun h => Event.bindAttempt h.port)

/-- The main promise's rejection: the explicit configuration error of
src/src/index.ts:198-200 in `none` mode with a null plaintext port, otherwise a
bind failure per the oracle. -/
def Server.mainError (s : ServerState) (bindOk : Option Nat → Bool) :
    Option ListenError :=
  match s.options.ssl with
  | SslConfig.letsEncrypt =>
    if bindOk s.portHttps then Option.none
    else Option.some (ListenError.bindError s.portHttps)
  | SslConfig.none =>
    match s.portHttp with
    | Option.none =>
      Option.some (ListenError.configurationError "Cannot listen on HTTP without HTTP port.")
    | Option.some hp =>
      if bindOk (Option.some hp) then Option.none
      else Option.some (ListenError.bindError (Option.some hp))
  | SslConfig.manual _ =>
    if bindOk s.portHttps then Option.none
    else Option.some (ListenError.bindError s.portHttps)

/-- The rejection `await Promise.all([main, fallback])` surfaces (always a
single error).  The real first rejection is temporal; we determinise it as the
main error before the fallback one. -/
def Server.listenError (s : ServerState) (bindOk : Option Nat → Bool) :
    Option ListenError :=
  (Server.mainError s bindOk).orElse (fun _ => Server.fallbackError s bindOk)

/-- `startListening` (src/src/index.ts:171-217), determinised: `bindOk` gives
the outcome of each bind attempt by port.  Both promise executors run
synchronously, so the fallback handle (line 181) is pushed before the main
handle (lines 194/201/208), and both stay pushed whether or not their binds
later succeed.  On success the `"info"`/`"Listening"` debug call and the
`listen` emission follow all bind attempts; on failure the `await` throws and
neither happens. -/
def Server.startListening (s : ServerState) (env : ProcessEnv)
    (bindOk : Option Nat → Bool) : ListenExec :=
  let o := s.options
  let newServer := s.server ++ Server.fallbackHandles s ++ Server.mainHandles s
  { state := { s with server := newServer }
    env := resolveSslEnv o env
    trace := debugTrace o "info" "Going to listen" ++ [Event.emit "beforeListen"]
      ++ Server.fallbackAttempts s ++ Server.mainAttempts s
      ++ (match Server.listenError s bindOk with
          | Option.some _ => []
          | Option.none => debugTrace o "info" "Listening" ++ [Event.emit "listen"])
    result :=
      match Server.listenError s bindOk with
      | Option.some e => .error e
      | Option.none => .ok newServer }

/-- `listen` (src/src/index.ts:97-102): store the ports, then start listening.
Defaults are the conventional 443/80 pair. -/
def Server.listen (s : ServerState) (env : ProcessEnv) (bindOk : Option Nat → Bool)
    (httpsPort : Nat := 443) (httpPort : Option Nat := Option.some 80) : ListenExec :=
  Server.startListening
    { s with portHttp := httpPort, portHttps := Option.some httpsPort } env bindOk

/-- Result of one `close` run.  `destroyed` collects the connection keys whose
sockets were force-destroyed; `pending` collects the connections whose natural
close each graceful `srv.close` waits for before its callback fires (the
overall `close` completes only once every pending connection has closed). -/
structure CloseExec where
  state : ServerState
  destroyed : List String
  pending : List String
  result : Except String (List Handle)
deriving Repr

/-- First rejection of `Promise.all` over the per-handle close promises,
determinised as the first error in handle order. -/
def firstCloseError (errs : List (Option String)) : Option String :=
  errs.findSome? id

/-- `close` (src/src/index.ts:73-90), determinised: `closeErrs` gives each
handle's close-callback error (by position).  Ports are cleared and `_server`
is emptied synchronously, before any close completes.  Every pushed handle went
through `enableDestroy`, so `srv.destroy` exists and `now` alone selects the
branch.  `Promise.all` resolves with the list of handles or rejects with a
single (first) error. -/
def Server.close (s : ServerState) (closeErrs : List (Option String)) (now : Bool) :
    CloseExec :=
  let handles := s.server
  { state := { s with portHttp := Option.none, portHttps := Option.none, server := [] }
    destroyed := if now then (handles.map Handle.connections).flatten else []
    pending := if now then [] else (handles.map Handle.connections).flatten
    result :=
      match firstCloseError (closeErrs.take handles.length) with
      | Option.some e => .error e
      | Option.none => .ok (handles.map (fun h => if now then destroyHandle h else h)) }

/-- The handles one `startListening` run pushes, as a function of the
configuration and the stored port pair (they do not depend on the handles
already in `_server`). -/
def Server.pushedHandles (o : IOptions) (portHttp portHttps : Option Nat) : List Handle :=
  Server.fallbackHandles { options := o, portHttp := portHttp, portHttps := portHttps }
    ++ Server.mainHandles { options := o, portHttp := portHttp, portHttps := portHttps }

/-- Is an event a debug-sink invocation? -/
def isDebugCall : Event → Bool
  | Event.debugCall _ _ => true
  | _ => false

/-- A concrete valid partial configuration: all required fields present, the
`debug` field absent (`undefined`). -/
def samplePartial : PartialIOptions :=
  { name := Option.some "my-redoubt-server"
    domains := Option.some ["example.com"]
    cookieSecret := Option.some "cookie-secret"
    webmasterMail := Option.some "webmaster@example.com" }

/-- A concrete resolved configuration with the documented defaults. -/
def baseOptions : IOptions :=
  { name := "my-redoubt-server"
    domains := ["example.com"]
    cookieSecret := "cookie-secret"
    webmasterMail := "webmaster@example.com"
    isDevelopment := false
    ssl := SslConfig.letsEncrypt
    letsEncryptCertDirectory := "./.certs/"
    agreeGreenlockTos := true
    staticFiles := Option.none
    maxPayloadSize := 100 * 1024
    debug := Option.some DebugSink.defaultDebug }

/-- `baseOptions` with a manually supplied certificate pair. -/
def manualOptions : IOptions :=
  { baseOptions with
    ssl := SslConfig.manual { key := "KEY", cert := "CERT", allowUnsigned := false } }

/-- `baseOptions` with ssl disabled. -/
def noneOptions : IOptions :=
  { baseOptions with ssl := SslConfig.none }

/-- `baseOptions` in development mode. -/
def devOptions : IOptions :=
  { baseOptions with isDevelopment := true }

/-- A claim-side predicate: one of the four required fields is absent from the
partial options. -/
def requiredFieldAbsent (p : PartialIOptions) : Prop :=
  p.name = Option.none ∨ p.domains = Option.none ∨
    p.cookieSecret = Option.none ∨ p.webmasterMail = Option.none

instance (p : PartialIOptions) : Decidable (requiredFieldAbsent p) := by
  unfold requiredFieldAbsent; infer_instance

end Redoubt

namespace Redoubt

/-- C4: constructing the server throws a `ConfigurationError` if and only if at
least one required field (`name`, `domains`, `cookieSecret`, `webmasterMail`) is
absent; with every required field present construction never throws (in
particular for configurations whose domain list is non-empty and whose max
payload size is a positive integer). -/
theorem construction_throws_iff_required_absent (p : PartialIOptions) :
    (∃ e, createDefaultOptions p = .error e) ↔ requiredFieldAbsent p := by
  unfold createDefaultOptions requiredFieldAbsent
  rcases hn : p.name with _ | n <;> rcases hd : p.domains with _ | d <;>
    rcases hc : p.cookieSecret with _ | c <;> rcases hw : p.webmasterMail with _ | w <;>
    simp

/-- Sweeping a registry with per-key removal amounts to filtering out every
iterated key. -/
theorem foldl_removeConn (l acc : List String) :
    l.foldl (fun registry key => removeConn key registry) acc
      = acc.filter (fun x => !l.contains x) := by
  induction l generalizing acc with
  | nil => simp
  | cons k l ih =>
    simp only [List.foldl_cons]
    rw [ih]
    simp only [removeConn, List.filter_filter]
    apply List.filter_congr
    intro x _
    simp [List.contains_cons, Bool.not_or, Bool.and_comm, bne, Bool.beq_eq_decide_eq]

/-- The destroy sweep empties the registry: every key present at the start of
the sweep is destroyed, and its close callback removes it. -/
theorem destroyAllConns_eq_nil (conns : List String) : destroyAllConns conns = [] := by
  unfold destroyAllConns
  rw [foldl_removeConn]
  rw [List.filter_eq_nil_iff]
  intro a ha
  simp [ha]

theorem destroyHandle_connections (h : Handle) : (destroyHandle h).connections = [] := by
  simp [destroyHandle, destroyAllConns_eq_nil]

theorem firstCloseError_eq_none (errs : List (Option String))
    (h : ∀ oe ∈ errs, oe = Option.none) : firstCloseError errs = Option.none := by
  simp only [firstCloseError, List.findSome?_eq_none_iff, id]
  exact h

theorem firstCloseError_mem (errs : List (Option String)) (e : String)
    (h : firstCloseError errs = Option.some e) : Option.some e ∈ errs := by
  rw [firstCloseError, List.findSome?_eq_some_iff] at h
  obtain ⟨a, b, c, rfl, hb, -⟩ := h
  simp only [id] at hb
  subst hb
  simp

/-- C1 counterexample: `close` does not aggregate individual failures.  With
two handles whose closes fail with distinct errors, the surfaced error is the
first failure alone, and it is unchanged when the second failure is replaced by
a different one — so the result cannot carry (aggregate) all individual
failures. -/
theorem close_failure_not_aggregated :
    (Server.close
        { options := baseOptions
          server := [{ kind := HandleKind.greenlock, port := Option.some 443 },
                     { kind := HandleKind.fallback, port := Option.some 80 }]
          portHttp := Option.some 80
          portHttps := Option.some 443 }
        [Option.some "close failed: A", Option.some "close failed: B"] false).result
      = Except.error "close failed: A" ∧
    (Server.close
        { options := baseOptions
          server := [{ kind := HandleKind.greenlock, port := Option.some 443 },
                     { kind := HandleKind.fallback, port := Option.some 80 }]
          portHttp := Option.some 80
          portHttps := Option.some 443 }
        [Option.some "close failed: A", Option.some "close failed: C"] false).result
      = Except.error "close failed: A" :=
  ⟨rfl, rfl⟩

/-- C1 (amended): `close` always drains the handle list to empty and clears the
stored port pair, whether it returns or fails; in the `Idle` state it returns
an empty list and performs no action; when every individual close succeeds it
returns the list of handles that were closed; when one or more individual
closes fail it fails with a single error which is one of the individual
failures (the first to occur), the drain having completed regardless. -/
theorem close_drains_and_surfaces_single_failure
    (s : ServerState) (closeErrs : List (Option String)) (now : Bool) :
    (Server.close s closeErrs now).state.server = [] ∧
    (Server.close s closeErrs now).state.portHttp = Option.none ∧
    (Server.close s closeErrs now).state.portHttps = Option.none ∧
    (s.server = [] ∧ s.portHttp = Option.none ∧ s.portHttps = Option.none →
      (Server.close s closeErrs now).result = .ok [] ∧
      (Server.close s closeErrs now).state = s ∧
      (Server.close s closeErrs now).destroyed = [] ∧
      (Server.close s closeErrs now).pending = []) ∧
    ((∀ oe ∈ closeErrs.take s.server.length, oe = Option.none) →
      (Server.close s closeErrs now).result
        = .ok (s.server.map fun h => if now then destroyHandle h else h)) ∧
    (∀ e, (Server.close s closeErrs now).result = .error e →
      Option.some e ∈ closeErrs.take s.server.length) := by
  refine ⟨rfl, rfl, rfl, ?_, ?_, ?_⟩
  · rintro ⟨h1, h2, h3⟩
    refine ⟨?_, ?_, ?_, ?_⟩
    · simp [Server.close, h1, firstCloseError]
    · cases s
      simp_all [Server.close]
    · simp [Server.close, h1]
    · simp [Server.close, h1]
  · intro h
    simp only [Server.close, firstCloseError_eq_none _ h]
  · intro e he
    simp only [Server.close] at he
    rcases hfc : firstCloseError (closeErrs.take s.server.length) with _ | e'
    · rw [hfc] at he
      exact absurd he (by simp)
    · rw [hfc] at he
      have : e' = e := by
        have h2 := he
        simp at h2
        exact h2
      subst this
      exact firstCloseError_mem _ _ hfc

/-- Closed witness for the amended C1 theorem at a concrete idle state. -/
theorem close_drains_witness :
    (Server.close { options := baseOptions } [] false).result = .ok [] ∧
    (Server.close { options := baseOptions } [] false).state
      = { options := baseOptions } ∧
    (Server.close { options := baseOptions } [] false).destroyed = [] ∧
    (Server.close { options := baseOptions } [] false).pending = [] :=
  (close_drains_and_surfaces_single_failure { options := baseOptions } [] false).2.2.2.1
    ⟨rfl, rfl, rfl⟩

theorem emit_not_mem_debugTrace (o : IOptions) (l m nm : String) :
    Event.emit nm ∉ debugTrace o l m := by
  unfold debugTrace
  cases o.debug <;> simp

theorem bindAttempt_not_mem_debugTrace (o : IOptions) (l m : String) (p : Option Nat) :
    Event.bindAttempt p ∉ debugTrace o l m := by
  unfold debugTrace
  cases o.debug <;> simp

theorem emit_not_mem_fallbackAttempts (s : ServerState) (nm : String) :
    Event.emit nm ∉ Server.fallbackAttempts s := by
  unfold Server.fallbackAttempts
  split <;> simp

theorem emit_not_mem_mainAttempts (s : ServerState) (nm : String) :
    Event.emit nm ∉ Server.mainAttempts s := by
  unfold Server.mainAttempts
  simp

/-- C2: on every `startListening` run the `beforeListen` event is emitted
exactly once and precedes every bind attempt; the `listen` event is emitted
exactly once when every requested listener bound successfully (as the final
trace event, hence after every bind attempt) and is never emitted when the run
fails. -/
theorem beforeListen_precedes_binds_listen_only_on_success
    (s : ServerState) (env : ProcessEnv) (bindOk : Option Nat → Bool) :
    (∃ pre post,
      (Server.startListening s env bindOk).trace = pre ++ Event.emit "beforeListen" :: post ∧
      Event.emit "beforeListen" ∉ pre ∧ Event.emit "beforeListen" ∉ post ∧
      ∀ p, Event.bindAttempt p ∉ pre) ∧
    (match (Server.startListening s env bindOk).result with
     | .ok _ => ∃ t, (Server.startListening s env bindOk).trace = t ++ [Event.emit "listen"] ∧
        Event.emit "listen" ∉ t
     | .error _ => Event.emit "listen" ∉ (Server.startListening s env bindOk).trace) := by
  constructor
  · refine ⟨debugTrace s.options "info" "Going to listen",
      Server.fallbackAttempts s ++ (Server.mainAttempts s ++
        (match Server.listenError s bindOk with
         | Option.some _ => []
         | Option.none => debugTrace s.options "info" "Listening" ++ [Event.emit "listen"])),
      ?_, emit_not_mem_debugTrace _ _ _ _, ?_, fun p => bindAttempt_not_mem_debugTrace _ _ _ p⟩
    · simp [Server.startListening, List.append_assoc]
    · intro hmem
      rcases List.mem_append.mp hmem with h | h
      · exact emit_not_mem_fallbackAttempts _ _ h
      rcases List.mem_append.mp h with h | h
      · exact emit_not_mem_mainAttempts _ _ h
      rcases hle : Server.listenError s bindOk with _ | e <;> rw [hle] at h
      · rcases List.mem_append.mp h with h | h
        · exact emit_not_mem_debugTrace _ _ _ _ h
        · simp at h
      · simp at h
  · rcases hle : Server.listenError s bindOk with _ | e
    · simp only [Server.startListening, hle]
      refine ⟨debugTrace s.options "info" "Going to listen" ++ [Event.emit "beforeListen"]
        ++ Server.fallbackAttempts s ++ Server.mainAttempts s
        ++ debugTrace s.options "info" "Listening", ?_, ?_⟩
      · simp [List.append_assoc]
      · intro hmem
        rcases List.mem_append.mp hmem with h | h
        · rcases List.mem_append.mp h with h | h
          · rcases List.mem_append.mp h with h | h
            · rcases List.mem_append.mp h with h | h
              · exact emit_not_mem_debugTrace _ _ _ _ h
              · simp at h
            · exact emit_not_mem_fallbackAttempts _ _ h
          · exact emit_not_mem_mainAttempts _ _ h
        · exact emit_not_mem_debugTrace _ _ _ _ h
    · simp only [Server.startListening, hle]
      intro hmem
      rcases List.mem_append.mp hmem with h | h
      · rcases List.mem_append.mp h with h | h
        · rcases List.mem_append.mp h with h | h
          · rcases List.mem_append.mp h with h | h
            · exact emit_not_mem_debugTrace _ _ _ _ h
            · simp at h
          · exact emit_not_mem_fallbackAttempts _ _ h
        · exact emit_not_mem_mainAttempts _ _ h
      · simp at h

/-- C3 counterexample: the fallback server's only route is `get("*")`, so a
non-`GET` request to the plaintext port is not redirected — a `POST` to
`/foo?x=1` receives express's default not-found response rather than an HTTP
redirect.  "Every request to the plaintext port receives an HTTP redirect" is
therefore false as stated. -/
theorem fallback_non_get_not_redirected :
    fallbackHandler (Option.some 8443) "POST" "example.com" "/foo?x=1"
      = FallbackResponse.notFound :=
  rfl

/-- C3 (amended): after a successful `listen(8443, 8080)` in
manual-certificate mode, exactly two listener handles exist — one bound to
8443, the other to 8080 — and every `GET` (or `HEAD`) request to the plaintext
port is redirected to `https://<host>:<secured port><url>`, preserving path
and query; in particular `GET /foo?x=1` redirects to
`https://<host>:8443/foo?x=1`.  (Requests with other methods match no route.) -/
theorem listen_manual_two_handles_and_redirect
    (o : IOptions) (m : ManualSsl) (ho : o.ssl = SslConfig.manual m)
    (env : ProcessEnv) (bindOk : Option Nat → Bool)
    (hb1 : bindOk (Option.some 8443) = true) (hb2 : bindOk (Option.some 8080) = true) :
    (Server.listen { options := o } env bindOk 8443 (Option.some 8080)).result
      = .ok [{ kind := HandleKind.fallback, port := Option.some 8080, connections := [] },
             { kind := HandleKind.spdy, port := Option.some 8443, connections := [] }] ∧
    (Server.listen { options := o } env bindOk 8443 (Option.some 8080)).state.server.length
      = 2 ∧
    ((Server.listen { options := o } env bindOk 8443 (Option.some 8080)).state.server.map
        Handle.port).Perm [Option.some 8443, Option.some 8080] ∧
    (∀ host url,
      fallbackHandler
          (Server.listen { options := o } env bindOk 8443 (Option.some 8080)).state.portHttps
          "GET" host url
        = FallbackResponse.redirect ("https://" ++ host ++ ":8443" ++ url)) ∧
    fallbackHandler (Option.some 8443) "GET" "example.com" "/foo?x=1"
      = FallbackResponse.redirect "https://example.com:8443/foo?x=1" := by
  have hstate :
      (Server.listen { options := o } env bindOk 8443 (Option.some 8080)).state.portHttps
        = Option.some 8443 := by
    simp [Server.listen, Server.startListening]
  refine ⟨?_, ?_, ?_, ?_, rfl⟩
  · simp [Server.listen, Server.startListening, Server.listenError, Server.mainError,
      Server.fallbackError, Server.useFallback, Server.fallbackHandles, Server.mainHandles,
      sslIsLetsEncrypt, sslIsNone, ho, hb1, hb2]
  · simp [Server.listen, Server.startListening, Server.fallbackHandles, Server.mainHandles,
      Server.useFallback, sslIsLetsEncrypt, sslIsNone, ho]
  · have hmap :
        (Server.listen { options := o } env bindOk 8443 (Option.some 8080)).state.server.map
            Handle.port = [Option.some 8080, Option.some 8443] := by
      simp [Server.listen, Server.startListening, Server.fallbackHandles, Server.mainHandles,
        Server.useFallback, sslIsLetsEncrypt, sslIsNone, ho]
    rw [hmap]
    exact List.Perm.swap _ _ _
  · intro host url
    rw [hstate]
    show FallbackResponse.redirect
        ("https://" ++ host ++ ":" ++ toString (8443 : Nat) ++ url)
      = FallbackResponse.redirect ("https://" ++ host ++ ":8443" ++ url)
    have h : toString (8443 : Nat) = "8443" := rfl
    rw [h, String.append_assoc ("https://" ++ host) ":" "8443"]
    rfl

/-- Closed witness for C3 at concrete options and an all-success bind oracle. -/
theorem listen_manual_two_handles_witness :
    (Server.listen { options := manualOptions } {} (fun _ => true) 8443
        (Option.some 8080)).state.server.length = 2 ∧
    (Server.listen { options := manualOptions } {} (fun _ => true) 8443
        (Option.some 8080)).result
      = .ok [{ kind := HandleKind.fallback, port := Option.some 8080, connections := [] },
             { kind := HandleKind.spdy, port := Option.some 8443, connections := [] }] :=
  ⟨(listen_manual_two_handles_and_redirect manualOptions
      { key := "KEY", cert := "CERT", allowUnsigned := false } rfl {} (fun _ => true)
      rfl rfl).2.1,
   (listen_manual_two_handles_and_redirect manualOptions
      { key := "KEY", cert := "CERT", allowUnsigned := false } rfl {} (fun _ => true)
      rfl rfl).1⟩

/-- C5: with `ssl: "none"` and a non-null plaintext port that binds, `listen`
yields exactly one listener handle, the plain listener on that port; with
`ssl: "none"` and a null plaintext port it fails with the configuration error
and pushes no handle. -/
theorem listen_none_mode_single_handle_or_config_error
    (o : IOptions) (ho : o.ssl = SslConfig.none) (env : ProcessEnv)
    (bindOk : Option Nat → Bool) (hps hp : Nat) (hb : bindOk (Option.some hp) = true) :
    ((Server.listen { options := o } env bindOk hps (Option.some hp)).result
        = .ok [{ kind := HandleKind.plain, port := Option.some hp, connections := [] }] ∧
      (Server.listen { options := o } env bindOk hps (Option.some hp)).state.server
        = [{ kind := HandleKind.plain, port := Option.some hp, connections := [] }]) ∧
    ((Server.listen { options := o } env bindOk hps Option.none).result
        = .error (ListenError.configurationError "Cannot listen on HTTP without HTTP port.") ∧
      (Server.listen { options := o } env bindOk hps Option.none).state.server = []) := by
  refine ⟨⟨?_, ?_⟩, ?_, ?_⟩ <;>
    simp [Server.listen, Server.startListening, Server.listenError, Server.mainError,
      Server.fallbackError, Server.useFallback, Server.fallbackHandles, Server.mainHandles,
      sslIsLetsEncrypt, sslIsNone, ho, hb]

/-- Closed witness for C5 at concrete options and ports. -/
theorem listen_none_mode_witness :
    (Server.listen { options := noneOptions } {} (fun _ => true) 8443
        (Option.some 8080)).result
      = .ok [{ kind := HandleKind.plain, port := Option.some 8080, connections := [] }] ∧
    (Server.listen { options := noneOptions } {} (fun _ => true) 8443 Option.none).result
      = .error (ListenError.configurationError "Cannot listen on HTTP without HTTP port.") :=
  ⟨(listen_none_mode_single_handle_or_config_error noneOptions rfl {} (fun _ => true)
      8443 8080 rfl).1.1,
   (listen_none_mode_single_handle_or_config_error noneOptions rfl {} (fun _ => true)
      8443 8080 rfl).2.1⟩

/-- C6: `close(forced=true)` force-destroys every currently tracked connection
of every active listener, after which each handle's connection registry is
empty, and (when the individual closes succeed) returns a handle list whose
length equals the number of active listeners; `close(forced=false)`
force-terminates nothing and completes only once every open connection has
closed naturally (they are all pending). -/
theorem close_forced_destroys_all_graceful_waits
    (s : ServerState) (closeErrs : List (Option String))
    (hok : ∀ oe ∈ closeErrs.take s.server.length, oe = Option.none) :
    (Server.close s closeErrs true).destroyed
      = (s.server.map Handle.connections).flatten ∧
    (∀ h ∈ s.server, (destroyHandle h).connections = []) ∧
    (∃ hs, (Server.close s closeErrs true).result = .ok hs ∧
      hs.length = s.server.length ∧ ∀ h ∈ hs, h.connections = []) ∧
    (Server.close s closeErrs false).destroyed = [] ∧
    (Server.close s closeErrs false).pending
      = (s.server.map Handle.connections).flatten := by
  refine ⟨rfl, fun h _ => destroyHandle_connections h, ?_, rfl, rfl⟩
  refine ⟨s.server.map destroyHandle, ?_, by simp, ?_⟩
  · simp only [Server.close, firstCloseError_eq_none _ hok]
    simp
  · intro h hh
    rw [List.mem_map] at hh
    obtain ⟨h0, -, rfl⟩ := hh
    exact destroyHandle_connections h0

/-- Closed witness for C6 at a concrete state with three tracked connections
across two listeners. -/
theorem close_forced_destroys_all_witness :
    (Server.close
        { options := baseOptions
          server := [{ kind := HandleKind.greenlock, port := Option.some 443,
                       connections := ["1.2.3.4:1000", "1.2.3.4:1001"] },
                     { kind := HandleKind.fallback, port := Option.some 80,
                       connections := ["5.6.7.8:2000"] }]
          portHttp := Option.some 80
          portHttps := Option.some 443 }
        [Option.none, Option.none] true).destroyed
      = ["1.2.3.4:1000", "1.2.3.4:1001", "5.6.7.8:2000"] ∧
    (Server.close
        { options := baseOptions
          server := [{ kind := HandleKind.greenlock, port := Option.some 443,
                       connections := ["1.2.3.4:1000", "1.2.3.4:1001"] },
                     { kind := HandleKind.fallback, port := Option.some 80,
                       connections := ["5.6.7.8:2000"] }]
          portHttp := Option.some 80
          portHttps := Option.some 443 }
        [Option.none, Option.none] false).destroyed = [] ∧
    (Server.close
        { options := baseOptions
          server := [{ kind := HandleKind.greenlock, port := Option.some 443,
                       connections := ["1.2.3.4:1000", "1.2.3.4:1001"] },
                     { kind := HandleKind.fallback, port := Option.some 80,
                       connections := ["5.6.7.8:2000"] }]
          portHttp := Option.some 80
          portHttps := Option.some 443 }
        [Option.none, Option.none] false).pending
      = ["1.2.3.4:1000", "1.2.3.4:1001", "5.6.7.8:2000"] :=
  ⟨(close_forced_destroys_all_graceful_waits _ [Option.none, Option.none]
      (by decide)).1,
   (close_forced_destroys_all_graceful_waits
      { options := baseOptions
        server := [{ kind := HandleKind.greenlock, port := Option.some 443,
                     connections := ["1.2.3.4:1000", "1.2.3.4:1001"] },
                   { kind := HandleKind.fallback, port := Option.some 80,
                     connections := ["5.6.7.8:2000"] }]
        portHttp := Option.some 80
        portHttps := Option.some 443 }
      [Option.none, Option.none] (by decide)).2.2.2.1,
   (close_forced_destroys_all_graceful_waits
      { options := baseOptions
        server := [{ kind := HandleKind.greenlock, port := Option.some 443,
                     connections := ["1.2.3.4:1000", "1.2.3.4:1001"] },
                   { kind := HandleKind.fallback, port := Option.some 80,
                     connections := ["5.6.7.8:2000"] }]
        portHttp := Option.some 80
        portHttps := Option.some 443 }
      [Option.none, Option.none] (by decide)).2.2.2.2⟩

/-- C7: in manual-certificate mode with two concurrent binds, when at least one
of the two fails, `listen` fails with a `BindError`, and both pushed listeners
— in particular any that bound successfully — remain registered in the handle
list (no rollback; `listen` performs no close). -/
theorem listen_partial_bind_failure_no_rollback
    (s : ServerState) (env : ProcessEnv) (bindOk : Option Nat → Bool)
    (m : ManualSsl) (ho : s.options.ssl = SslConfig.manual m) (hps hp : Nat)
    (hfail : bindOk (Option.some hps) = false ∨ bindOk (Option.some hp) = false) :
    (∃ p, (Server.listen s env bindOk hps (Option.some hp)).result
        = .error (ListenError.bindError p)) ∧
    ({ kind := HandleKind.spdy, port := Option.some hps, connections := [] } : Handle)
      ∈ (Server.listen s env bindOk hps (Option.some hp)).state.server ∧
    ({ kind := HandleKind.fallback, port := Option.some hp, connections := [] } : Handle)
      ∈ (Server.listen s env bindOk hps (Option.some hp)).state.server := by
  refine ⟨?_, ?_, ?_⟩
  · cases hmain : bindOk (Option.some hps) with
    | false =>
      exact ⟨Option.some hps, by
        simp [Server.listen, Server.startListening, Server.listenError, Server.mainError,
          Server.fallbackError, Server.useFallback, sslIsLetsEncrypt, sslIsNone, ho, hmain,
          Option.orElse]⟩
    | true =>
      have hfb : bindOk (Option.some hp) = false := by
        rcases hfail with h | h
        · rw [hmain] at h
          exact absurd h (by simp)
        · exact h
      exact ⟨Option.some hp, by
        simp [Server.listen, Server.startListening, Server.listenError, Server.mainError,
          Server.fallbackError, Server.useFallback, sslIsLetsEncrypt, sslIsNone, ho, hmain,
          hfb, Option.orElse]⟩
  · simp [Server.listen, Server.startListening, Server.fallbackHandles, Server.mainHandles,
      Server.useFallback, sslIsLetsEncrypt, sslIsNone, ho]
  · simp [Server.listen, Server.startListening, Server.fallbackHandles, Server.mainHandles,
      Server.useFallback, sslIsLetsEncrypt, sslIsNone, ho]

/-- Closed witness for C7: the secured bind on 9443 succeeds, the plaintext
bind on 9080 fails; the run errors and the spdy handle is registered. -/
theorem listen_partial_bind_failure_witness :
    (∃ p, (Server.listen { options := manualOptions } {} (fun q => q == Option.some 9443)
        9443 (Option.some 9080)).result = .error (ListenError.bindError p)) ∧
    ({ kind := HandleKind.spdy, port := Option.some 9443, connections := [] } : Handle)
      ∈ (Server.listen { options := manualOptions } {} (fun q => q == Option.some 9443)
          9443 (Option.some 9080)).state.server :=
  ⟨(listen_partial_bind_failure_no_rollback { options := manualOptions } {}
      (fun q => q == Option.some 9443)
      { key := "KEY", cert := "CERT", allowUnsigned := false } rfl 9443 9080
      (Or.inr (by decide))).1,
   (listen_partial_bind_failure_no_rollback { options := manualOptions } {}
      (fun q => q == Option.some 9443)
      { key := "KEY", cert := "CERT", allowUnsigned := false } rfl 9443 9080
      (Or.inr (by decide))).2.1⟩

/-- C8 counterexample: resolving the SSL operating mode is not free of
process-wide side effects.  Running the mode dispatch for a `letsEncrypt`
configuration in development mode mutates
`process.env.NODE_TLS_REJECT_UNAUTHORIZED`, so the environment after the call
differs from the environment before it. -/
theorem ssl_resolution_mutates_process_env :
    (Server.startListening { options := devOptions }
        { nodeTlsRejectUnauthorized := Option.none } (fun _ => true)).env
      ≠ { nodeTlsRejectUnauthorized := Option.none } := by
  decide

/-- C8 (amended): resolving the SSL operating mode is deterministic — a pure
function of the configuration and the incoming environment — and leaves all
process-wide environment state unchanged except that it sets
`NODE_TLS_REJECT_UNAUTHORIZED` to `"0"` exactly when the mode is `letsEncrypt`
with `isDevelopment`, or manual with `allowUnsigned` or `isDevelopment`. -/
theorem ssl_resolution_env_effect
    (s : ServerState) (env : ProcessEnv) (bindOk : Option Nat → Bool) :
    (Server.startListening s env bindOk).env = resolveSslEnv s.options env ∧
    (tlsRejectDisabled s.options = false → (Server.startListening s env bindOk).env = env) ∧
    (tlsRejectDisabled s.options = true →
      (Server.startListening s env bindOk).env
        = { nodeTlsRejectUnauthorized := Option.some "0" }) := by
  refine ⟨rfl, ?_, ?_⟩
  · intro h
    simp [Server.startListening, resolveSslEnv, h]
  · intro h
    simp [Server.startListening, resolveSslEnv, h]

/-- Closed witness for the amended C8 theorem: in a non-development
`letsEncrypt` configuration the environment passes through unchanged. -/
theorem ssl_resolution_env_effect_witness :
    (Server.startListening { options := baseOptions }
        { nodeTlsRejectUnauthorized := Option.none } (fun _ => true)).env
      = { nodeTlsRejectUnauthorized := Option.none } :=
  (ssl_resolution_env_effect { options := baseOptions }
      { nodeTlsRejectUnauthorized := Option.none } (fun _ => true)).2.1 rfl

theorem filter_isDebugCall_debugTrace (o : IOptions) (l m : String) :
    (debugTrace o l m).filter isDebugCall = debugTrace o l m := by
  unfold debugTrace
  cases o.debug <;> simp [isDebugCall]

theorem filter_isDebugCall_fallbackAttempts (s : ServerState) :
    (Server.fallbackAttempts s).filter isDebugCall = [] := by
  unfold Server.fallbackAttempts
  split <;> simp [isDebugCall]

theorem filter_isDebugCall_mainAttempts (s : ServerState) :
    (Server.mainAttempts s).filter isDebugCall = [] := by
  unfold Server.mainAttempts
  generalize Server.mainHandles s = l
  induction l with
  | nil => simp
  | cons h t ih => simp [isDebugCall, ih]

theorem createDefaultOptions_ok_debug (p : PartialIOptions) (o : IOptions)
    (h : createDefaultOptions p = .ok o) :
    o.debug = p.debug.getD (Option.some DebugSink.defaultDebug) := by
  unfold createDefaultOptions at h
  rcases hn : p.name with _ | n <;> rcases hd : p.domains with _ | d <;>
    rcases hc : p.cookieSecret with _ | c <;> rcases hw : p.webmasterMail with _ | w <;>
    rw [hn, hd, hc, hw] at h <;> simp at h
  rw [← h]

/-- C9 counterexample: omitting the `debug` field from the configuration does
not disable the debug calls — the default console sink is installed and the
constructor immediately fires a `"debug"`-level invocation. -/
theorem debug_absent_uses_default_sink :
    (∃ o, createDefaultOptions samplePartial = .ok o ∧
      o.debug = Option.some DebugSink.defaultDebug) ∧
    (∃ st, Server.construct samplePartial
      = .ok (st, [Event.debugCall "debug" "Options"])) :=
  ⟨⟨_, rfl, rfl⟩, ⟨_, rfl⟩⟩

/-- C9 (amended): the debug sink is invoked at well-defined points — `"debug"`
on configuration resolution in the constructor, `"info"` before listening and,
on success, after listening — and an explicitly null sink disables all such
calls, while a sink absent from the configuration resolves to the default
console sink. -/
theorem debug_sink_invocation_points
    (s : ServerState) (env : ProcessEnv) (bindOk : Option Nat → Bool)
    (p : PartialIOptions) :
    (∀ o, createDefaultOptions p = .ok o →
      o.debug = p.debug.getD (Option.some DebugSink.defaultDebug)) ∧
    (s.options.debug = Option.none →
      (Server.startListening s env bindOk).trace.filter isDebugCall = []) ∧
    (∀ d, s.options.debug = Option.some d →
      (Server.startListening s env bindOk).trace.filter isDebugCall
        = Event.debugCall "info" "Going to listen" ::
          (match (Server.startListening s env bindOk).result with
           | .ok _ => [Event.debugCall "info" "Listening"]
           | .error _ => [])) ∧
    (∀ st tr, Server.construct p = .ok (st, tr) →
      tr = (match st.options.debug with
            | Option.some _ => [Event.debugCall "debug" "Options"]
            | Option.none => [])) := by
  refine ⟨createDefaultOptions_ok_debug p, ?_, ?_, ?_⟩
  · intro h
    rcases hle : Server.listenError s bindOk with _ | e <;>
      simp [Server.startListening, hle, debugTrace, h, isDebugCall, List.filter_append,
        filter_isDebugCall_fallbackAttempts, filter_isDebugCall_mainAttempts]
  · intro d h
    rcases hle : Server.listenError s bindOk with _ | e <;>
      simp [Server.startListening, hle, debugTrace, h, isDebugCall, List.filter_append,
        filter_isDebugCall_fallbackAttempts, filter_isDebugCall_mainAttempts]
  · intro st tr h
    unfold Server.construct at h
    rcases hco : createDefaultOptions p with e | o <;> rw [hco] at h
    · exact absurd h (by simp)
    · rw [Except.ok.injEq, Prod.mk.injEq] at h
      obtain ⟨hst, htr⟩ := h
      rw [← hst, ← htr]

/-- Closed witness for the amended C9 theorem: with the default sink present,
the listen path fires exactly the two documented `"info"` calls. -/
theorem debug_sink_invocation_points_witness :
    (Server.startListening { options := baseOptions } {}
        (fun _ => true)).trace.filter isDebugCall
      = [Event.debugCall "info" "Going to listen", Event.debugCall "info" "Listening"] :=
  (debug_sink_invocation_points { options := baseOptions } {} (fun _ => true)
      samplePartial).2.2.1 DebugSink.defaultDebug rfl

theorem listenError_none_mainError_none (s : ServerState) (bindOk : Option Nat → Bool)
    (h : Server.listenError s bindOk = Option.none) :
    Server.mainError s bindOk = Option.none := by
  unfold Server.listenError at h
  rcases hm : Server.mainError s bindOk with _ | e
  · rfl
  · rw [hm] at h
    simp [Option.orElse] at h

theorem mainHandles_ne_nil_of_mainError_none (s : ServerState) (bindOk : Option Nat → Bool)
    (h : Server.mainError s bindOk = Option.none) : Server.mainHandles s ≠ [] := by
  unfold Server.mainError at h
  unfold Server.mainHandles
  rcases hssl : s.options.ssl with _ | _ | m <;> rw [hssl] at h
  · rcases hp : s.portHttp with _ | q
    · rw [hp] at h
      simp at h
    · simp
  · simp
  · simp

theorem startListening_server_eq (s : ServerState) (env : ProcessEnv)
    (bindOk : Option Nat → Bool) :
    (Server.startListening s env bindOk).state.server
      = s.server ++ Server.pushedHandles s.options s.portHttp s.portHttps := by
  show s.server ++ Server.fallbackHandles s ++ Server.mainHandles s = _
  rw [List.append_assoc]
  rfl

theorem listen_server_eq (s : ServerState) (env : ProcessEnv)
    (bindOk : Option Nat → Bool) (hps : Nat) (hp : Option Nat) :
    (Server.listen s env bindOk hps hp).state.server
      = s.server ++ Server.pushedHandles s.options hp (Option.some hps) :=
  startListening_server_eq { s with portHttp := hp, portHttps := Option.some hps } env bindOk

theorem listen_options_eq (s : ServerState) (env : ProcessEnv)
    (bindOk : Option Nat → Bool) (hps : Nat) (hp : Option Nat) :
    (Server.listen s env bindOk hps hp).state.options = s.options := rfl

theorem startListening_result_ok (s : ServerState) (env : ProcessEnv)
    (bindOk : Option Nat → Bool) (h : Server.listenError s bindOk = Option.none) :
    (Server.startListening s env bindOk).result
      = .ok (s.server ++ Server.pushedHandles s.options s.portHttp s.portHttps) := by
  simp only [Server.startListening, h, List.append_assoc]
  rfl

theorem startListening_result_error (s : ServerState) (env : ProcessEnv)
    (bindOk : Option Nat → Bool) (e : ListenError)
    (h : Server.listenError s bindOk = Option.some e) :
    (Server.startListening s env bindOk).result = .error e := by
  simp only [Server.startListening, h]

theorem listen_result_ok (s : ServerState) (env : ProcessEnv)
    (bindOk : Option Nat → Bool) (hps : Nat) (hp : Option Nat)
    (h : Server.listenError { s with portHttp := hp, portHttps := Option.some hps } bindOk
      = Option.none) :
    (Server.listen s env bindOk hps hp).result
      = .ok (s.server ++ Server.pushedHandles s.options hp (Option.some hps)) :=
  startListening_result_ok { s with portHttp := hp, portHttps := Option.some hps } env bindOk h

theorem listen_result_error (s : ServerState) (env : ProcessEnv)
    (bindOk : Option Nat → Bool) (hps : Nat) (hp : Option Nat) (e : ListenError)
    (h : Server.listenError { s with portHttp := hp, portHttps := Option.some hps } bindOk
      = Option.some e) :
    (Server.listen s env bindOk hps hp).result = .error e :=
  startListening_result_error { s with portHttp := hp, portHttps := Option.some hps } env
    bindOk e h

/-- C10: a second `listen` without an intervening `close` appends its handles
to the existing handle list: after two runs the list is
`original ++ first-run handles ++ second-run handles` (each run contributing at
least one handle when it succeeds, and a successful run returning the whole
accumulated list), and a subsequent `close` drains and, when its individual
closes succeed, returns one handle per accumulated listener. -/
theorem listen_appends_handles_no_replace
    (s : ServerState) (env1 env2 : ProcessEnv) (b1 b2 : Option Nat → Bool)
    (hps1 hps2 : Nat) (hp1 hp2 : Option Nat) :
    ∃ l1 l2,
      (Server.listen s env1 b1 hps1 hp1).state.server = s.server ++ l1 ∧
      (Server.listen (Server.listen s env1 b1 hps1 hp1).state env2 b2 hps2 hp2).state.server
        = s.server ++ l1 ++ l2 ∧
      (∀ r, (Server.listen s env1 b1 hps1 hp1).result = .ok r →
        r = s.server ++ l1 ∧ l1 ≠ []) ∧
      (∀ r, (Server.listen (Server.listen s env1 b1 hps1 hp1).state env2 b2 hps2
          hp2).result = .ok r → r = s.server ++ l1 ++ l2 ∧ l2 ≠ []) ∧
      (∀ closeErrs now,
        (Server.close (Server.listen (Server.listen s env1 b1 hps1 hp1).state env2 b2
            hps2 hp2).state closeErrs now).state.server = [] ∧
        ((∀ oe ∈ closeErrs.take (s.server ++ l1 ++ l2).length, oe = Option.none) →
          ∃ hs, (Server.close (Server.listen (Server.listen s env1 b1 hps1 hp1).state
              env2 b2 hps2 hp2).state closeErrs now).result = .ok hs ∧
            hs.length = s.server.length + l1.length + l2.length)) := by
  refine ⟨Server.pushedHandles s.options hp1 (Option.some hps1),
    Server.pushedHandles s.options hp2 (Option.some hps2), ?_, ?_, ?_, ?_, ?_⟩
  · exact listen_server_eq s env1 b1 hps1 hp1
  · rw [listen_server_eq, listen_options_eq, listen_server_eq]
  · intro r hr
    rcases hle : Server.listenError { s with portHttp := hp1, portHttps := Option.some hps1 }
        b1 with _ | e
    · rw [listen_result_ok s env1 b1 hps1 hp1 hle] at hr
      injection hr with hr2
      refine ⟨hr2.symm, ?_⟩
      intro hnil
      unfold Server.pushedHandles at hnil
      rcases List.append_eq_nil.mp hnil with ⟨-, hmain⟩
      exact mainHandles_ne_nil_of_mainError_none _ b1
        (listenError_none_mainError_none _ b1 hle) hmain
    · rw [listen_result_error s env1 b1 hps1 hp1 e hle] at hr
      exact absurd hr (by simp)
  · intro r hr
    rcases hle : Server.listenError { (Server.listen s env1 b1 hps1 hp1).state with
        portHttp := hp2, portHttps := Option.some hps2 } b2 with _ | e
    · rw [listen_result_ok (Server.listen s env1 b1 hps1 hp1).state env2 b2 hps2 hp2 hle]
        at hr
      injection hr with hr2
      constructor
      · rw [← hr2, listen_options_eq, listen_server_eq]
      · intro hnil
        unfold Server.pushedHandles at hnil
        rcases List.append_eq_nil.mp hnil with ⟨-, hmain⟩
        exact mainHandles_ne_nil_of_mainError_none _ b2
          (listenError_none_mainError_none _ b2 hle) hmain
    · rw [listen_result_error (Server.listen s env1 b1 hps1 hp1).state env2 b2 hps2 hp2
          e hle] at hr
      exact absurd hr (by simp)
  · intro closeErrs now
    have hsrv : (Server.listen (Server.listen s env1 b1 hps1 hp1).state env2 b2 hps2
        hp2).state.server
        = s.server ++ Server.pushedHandles s.options hp1 (Option.some hps1)
          ++ Server.pushedHandles s.options hp2 (Option.some hps2) := by
      rw [listen_server_eq, listen_options_eq, listen_server_eq]
    refine ⟨rfl, ?_⟩
    intro hok
    rw [← hsrv] at hok
    refine ⟨(Server.listen (Server.listen s env1 b1 hps1 hp1).state env2 b2 hps2
        hp2).state.server.map (fun h => if now then destroyHandle h else h), ?_, ?_⟩
    · simp only [Server.close, firstCloseError_eq_none _ hok]
    · rw [List.length_map, hsrv]
      simp [List.length_append, Nat.add_assoc]

end Redoubt
